import Mathlib

/-!
Verification development for the anonymous secure chat application.

The development shallowly embeds the cryptographic core of the repository:
the `EncryptedData` wire type and the `CryptoProvider` operations
(`src/context/CryptoContext.tsx`, given here as `src/unnamed/part_003`, and
`src/src/context/CryptoContext.tsx`), the `DocumentSigner` component's
`verifyDocument` flow (`src/unnamed/part_000`), and the message/certificate
types (`src/src/types/index.ts`).

The repository's `utils` modules (`forwardSecrecy.ts`, `certificates.ts`,
`signing.ts`) are not part of the provided sources; only their call sites
and type signatures are.  Definitions for them below are modelled from the
specification and are marked `Modelled from the spec:` in their doc
comments.  Cryptographic primitives (AES-GCM, ECDSA, SHA-256, base64) are
given standard symbolic executable models: an authenticated ciphertext
determines its key, nonce and plaintext, a signature verifies exactly under
the matching key over the same bytes, and the digest is an injective
function of the content.
-/

namespace SecureChat

/-- Byte strings (`Uint8Array` values in the source) are modelled as lists
of naturals. -/
abbrev Bytes := List Nat

/-- Encoding of a plaintext string as bytes (`TextEncoder.encode`),
modelled symbolically as the list of character codes. -/
def strBytes (s : String) : Bytes := s.toList.map Char.toNat

/-- Decoding of bytes back to a string (`TextDecoder.decode`). -/
def bytesStr (b : Bytes) : String := String.mk (b.map Char.ofNat)

/-- The wire type of an encrypted message, from `src/src/types/index.ts`
lines 20-23.  Its only fields are the nonce and the ciphertext; there is no
counter field. -/
structure EncryptedData where
  iv : Bytes
  data : Bytes
deriving DecidableEq, Repr

/-- Modelled from the spec: the authenticated-encryption primitive
(AES-GCM under a per-message key).  The symbolic ciphertext records the key
material (shared secret and counter index), the nonce and the plaintext as
a length-prefixed byte string, so that decryption succeeds exactly under
the same key and nonce. -/
def aeadEncrypt (secret : Bytes) (counter : Nat) (iv : Bytes) (plaintext : String) : Bytes :=
  secret.length :: (secret ++ counter :: iv.length :: (iv ++ strBytes plaintext))

/-- Modelled from the spec: authenticated decryption.  Parses the symbolic
ciphertext and returns the plaintext only when the supplied shared secret,
counter index and nonce all match the ones the ciphertext was produced
under; any mismatch is an authentication failure, returned as `none`. -/
def aeadDecrypt (ct : Bytes) (secret : Bytes) (counter : Nat) (iv : Bytes) : Option String :=
  match ct with
  | [] => none
  | slen :: rest =>
    let s := rest.take slen
    match rest.drop slen with
    | [] => none
    | ctr :: rest2 =>
      match rest2 with
      | [] => none
      | ivlen :: rest3 =>
        let iv' := rest3.take ivlen
        let ptb := rest3.drop ivlen
        if s = secret ∧ ctr = counter ∧ iv' = iv then some (bytesStr ptb) else none

namespace ForwardSecrecy

/-- Modelled from the spec: the session-scoped state of the
`ForwardSecrecy` module, a monotonically increasing send counter. -/
structure State where
  counter : Nat
deriving DecidableEq, Repr

/-- Modelled from the spec: `ForwardSecrecy.encryptWithForwardSecrecy`.
Reads-and-increments the send counter, derives the per-message key from the
shared secret and that counter, and authenticated-encrypts the message
under a fresh nonce (the nonce is an explicit argument, standing for the
random generator).  The returned payload has the `EncryptedData` shape of
`src/src/types/index.ts`: only `iv` and `data`, no counter field. -/
def encryptWithForwardSecrecy (message : String) (sharedSecret : Bytes) (iv : Bytes)
    (st : State) : EncryptedData × State :=
  let counter := st.counter
  ({ iv := iv, data := aeadEncrypt sharedSecret counter iv message }, { counter := counter + 1 })

/-- Modelled from the spec: `ForwardSecrecy.decryptWithForwardSecrecy`.
Derives the per-message key from the shared secret and the caller-supplied
`messageIndex` argument (the third parameter at the call site in
`src/unnamed/part_003` lines 195-199) and authenticated-decrypts. -/
def decryptWithForwardSecrecy (encryptedData : EncryptedData) (sharedSecret : Bytes)
    (messageIndex : Nat) : Option String :=
  aeadDecrypt encryptedData.data sharedSecret messageIndex encryptedData.iv

/-- Modelled from the spec: `ForwardSecrecy.resetCounter`, zeroing the
session counter. -/
def resetCounter : State := { counter := 0 }

/-- Counters allocated by a sequence of `n` encrypt calls against one
session.  Counter allocation is the only state-mutating step of
`encryptWithForwardSecrecy` and, per the spec, is atomic and performed
before any suspension point, so every interleaving of `n` concurrent calls
performs the `n` allocations in some sequential order; this function lists
the allocated values in that order. -/
def encryptCounters (st : State) : Nat → List Nat
  | 0 => []
  | n + 1 => st.counter :: encryptCounters (encryptWithForwardSecrecy "" [] [] st).2 n

end ForwardSecrecy

/-- Signing key pair (ECDSA P-256), modelled symbolically: both halves of a
pair are identified by the seed the pair was generated from, so a
signature verifies exactly under the public half matching the private half
that produced it. -/
structure SigningKeyPair where
  publicKey : Nat
  privateKey : Nat
deriving DecidableEq, Repr

/-- Key-pair generation from a randomness seed. -/
def mkSigningKeyPair (seed : Nat) : SigningKeyPair :=
  { publicKey := seed, privateKey := seed }

/-- Serialized (exported, base64-encoded) form of a public key, modelled as
its decimal string. -/
def serializeKey (pub : Nat) : String := toString pub

/-- Digit test used by the serialized-key and JSON parsers. -/
def isDigitCh (c : Char) : Bool :=
  48 ≤ c.toNat && c.toNat ≤ 57

/-- Folds a run of decimal digits into a number, returning the rest. -/
def scanDigits : List Char → Nat → Nat × List Char
  | [], acc => (acc, [])
  | c :: cs, acc =>
    if isDigitCh c then scanDigits cs (acc * 10 + (c.toNat - 48)) else (acc, c :: cs)

/-- Parses a serialized key (a nonempty all-digit string) back to the key
material; `none` on a malformed serialization. -/
def parseDecimal (s : String) : Option Nat :=
  match s.toList with
  | [] => none
  | c :: cs =>
    if (c :: cs).all (fun ch => isDigitCh ch) then some ((scanDigits (c :: cs) 0).1) else none

/-- Symbolic ECDSA signature of a string payload under a private key. -/
def eccSign (priv : Nat) (payload : String) : String :=
  toString priv ++ ":" ++ payload

/-- Symbolic ECDSA verification: succeeds exactly for the signature
produced under the matching key over the same payload. -/
def eccVerify (pub : Nat) (payload sig : String) : Bool :=
  sig == eccSign pub payload

/-- Handle to an imported WebCrypto key: the algorithm and usage list fixed
at import time, plus the underlying key material. -/
structure CryptoKeyHandle where
  algorithm : String
  usages : List String
  keySeed : Nat
deriving DecidableEq, Repr

/-- Identity certificate, wire shape from the spec (section 6):
`{id, subject, publicKey (base64), issuedAt, expiresAt, signature}`. -/
structure Certificate where
  id : String
  subject : String
  publicKey : String
  issuedAt : Nat
  expiresAt : Nat
  signature : String
deriving DecidableEq, Repr

namespace CertificateManager

/-- Modelled from the spec: the process-scoped state of the
`CertificateManager` singleton (`src/utils/certificates.ts` is not among
the provided sources), holding the lazily created root signing key pair. -/
structure ManagerState where
  rootKeyPair : Option SigningKeyPair
deriving DecidableEq, Repr

/-- Fixed certificate validity window (24 hours in milliseconds). -/
def validityMs : Nat := 86400000

/-- Canonical serialization of the signed certificate fields
`{id, subject, publicKey, issuedAt, expiresAt}`. -/
def certPayload (id subject publicKey : String) (issuedAt expiresAt : Nat) : String :=
  id ++ "|" ++ subject ++ "|" ++ publicKey ++ "|" ++ toString issuedAt ++ "|" ++ toString expiresAt

/-- Modelled from the spec: `CertificateManager.issueCertificate`.  Lazily
creates the root signing key pair if absent, builds the certificate fields
with `issuedAt = now` and `expiresAt = now + validityMs`, and signs the
canonical serialization with the root private key.  `freshId` and
`rootSeed` stand for the randomness consumed. -/
def issueCertificate (cm : ManagerState) (rootSeed : Nat) (freshId : String)
    (subject : String) (publicKey : Nat) (now : Nat) : Certificate × ManagerState :=
  let root := cm.rootKeyPair.getD (mkSigningKeyPair rootSeed)
  let pk := serializeKey publicKey
  let cert : Certificate :=
    { id := freshId, subject := subject, publicKey := pk, issuedAt := now,
      expiresAt := now + validityMs,
      signature := eccSign root.privateKey (certPayload freshId subject pk now (now + validityMs)) }
  (cert, { rootKeyPair := some root })

/-- Modelled from the spec: `CertificateManager.verifyCertificate`.  Fails
closed: returns `false` when no root key exists, when the certificate is
expired (`now ≥ expiresAt`) or not yet valid (`now < issuedAt`), or when
the signature does not verify over the canonical serialization under the
root public key; returns `true` only if all checks pass. -/
def verifyCertificate (cm : ManagerState) (now : Nat) (cert : Certificate) : Bool :=
  match cm.rootKeyPair with
  | none => false
  | some root =>
    decide (cert.issuedAt ≤ now) && decide (now < cert.expiresAt) &&
      eccVerify root.publicKey
        (certPayload cert.id cert.subject cert.publicKey cert.issuedAt cert.expiresAt)
        cert.signature

/-- Modelled from the spec: `CertificateManager.importPublicKey`, the
signing-key import path — deserializes a signing public key for
verification use, with the `ECDSA` algorithm and the `verify` usage.
Fails on a malformed serialization. -/
def importPublicKey (keyData : String) : Except String CryptoKeyHandle :=
  match parseDecimal keyData with
  | some n => Except.ok { algorithm := "ECDSA", usages := ["verify"], keySeed := n }
  | none => Except.error "DataError"

/-- Modelled from the spec: `CertificateManager.reset`, discarding the
root key pair. -/
def resetManager : ManagerState := { rootKeyPair := none }

end CertificateManager

namespace DigitalSigner

/-- Modelled from the spec: `DigitalSigner.signData` — ECDSA signature over
the raw message, returned in serialized form. -/
def signData (message : String) (priv : Nat) : String := eccSign priv message

/-- Modelled from the spec: `DigitalSigner.verifySignature` — returns
`false`, never throws, on any verification failure.  The underlying
WebCrypto engine refuses a key whose algorithm is not the signing
algorithm or whose usages do not include `verify`; the signer surfaces
that refusal as `false`. -/
def verifySignature (message signature : String) (key : CryptoKeyHandle) : Bool :=
  (key.algorithm == "ECDSA") && key.usages.contains "verify" &&
    eccVerify key.keySeed message signature

/-- Modelled from the spec: the fixed-algorithm content digest (SHA-256
hex) over a file's bytes, symbolically an injective function of the
content. -/
def digestHex (fileBytes : Bytes) : String := toString fileBytes

/-- Detached document signature record, wire shape from the spec
(section 6). -/
structure DocumentSignature where
  documentHash : String
  signature : String
  certificate : Certificate
  timestamp : Nat
deriving DecidableEq, Repr

/-- Modelled from the spec: `DigitalSigner.signDocument` — digests the full
file content, signs the digest (not the raw file), and packages the result
with the signer's certificate. -/
def signDocument (fileBytes : Bytes) (priv : Nat) (certificate : Certificate)
    (now : Nat) : DocumentSignature :=
  { documentHash := digestHex fileBytes
    signature := eccSign priv (digestHex fileBytes)
    certificate := certificate
    timestamp := now }

/-- Modelled from the spec: `DigitalSigner.verifyDocumentSignature` —
recomputes the digest and succeeds only if it equals the recorded
`documentHash` and the signature verifies over that digest under the given
key. -/
def verifyDocumentSignature (fileBytes : Bytes) (docSig : DocumentSignature)
    (key : CryptoKeyHandle) : Bool :=
  (digestHex fileBytes == docSig.documentHash) &&
    verifySignature docSig.documentHash docSig.signature key

end DigitalSigner

/-- JSON values, as produced by the platform JSON parser (subset used by
the signature-file format: strings without escapes, unsigned integers,
arrays and objects). -/
inductive Json where
  | str (s : String)
  | num (n : Nat)
  | arr (elems : List Json)
  | obj (members : List (String × Json))
deriving Repr

/-- Double-quote character. -/
def quoteChar : Char := Char.ofNat 34

/-- Opening-brace character. -/
def lbraceChar : Char := Char.ofNat 123

/-- Closing-brace character. -/
def rbraceChar : Char := Char.ofNat 125

/-- Opening-bracket character. -/
def lbrackChar : Char := Char.ofNat 91

/-- Closing-bracket character. -/
def rbrackChar : Char := Char.ofNat 93

/-- Comma character. -/
def commaChar : Char := Char.ofNat 44

/-- Colon character. -/
def colonChar : Char := Char.ofNat 58

/-- JSON whitespace test. -/
def isWsChar (c : Char) : Bool :=
  c.toNat == 32 || c.toNat == 10 || c.toNat == 9 || c.toNat == 13

/-- Skips leading JSON whitespace. -/
def skipWs : List Char → List Char
  | [] => []
  | c :: cs => if isWsChar c then skipWs cs else c :: cs

/-- Scans a string literal body up to its closing quote. -/
def scanString : List Char → Option (String × List Char)
  | [] => none
  | c :: cs =>
    if c = quoteChar then some ("", cs)
    else
      match scanString cs with
      | some (s, rest) => some (String.singleton c ++ s, rest)
      | none => none

mutual

/-- Fuel-bounded recursive-descent parser for a JSON value. -/
def parseVal : Nat → List Char → Option (Json × List Char)
  | 0, _ => none
  | fuel + 1, cs =>
    match skipWs cs with
    | [] => none
    | c :: rest =>
      if c = quoteChar then
        match scanString rest with
        | some (s, rest2) => some (Json.str s, rest2)
        | none => none
      else if c = lbraceChar then parseMembersStart fuel rest
      else if c = lbrackChar then parseElemsStart fuel rest
      else if isDigitCh c then
        let (n, rest2) := scanDigits (c :: rest) 0
        some (Json.num n, rest2)
      else none

/-- Parses an object body right after the opening brace. -/
def parseMembersStart : Nat → List Char → Option (Json × List Char)
  | 0, _ => none
  | fuel + 1, cs =>
    match skipWs cs with
    | [] => none
    | c :: rest =>
      if c = rbraceChar then some (Json.obj [], rest)
      else parseMembers fuel (c :: rest) []

/-- Parses the members of a non-empty object. -/
def parseMembers : Nat → List Char → List (String × Json) → Option (Json × List Char)
  | 0, _, _ => none
  | fuel + 1, cs, acc =>
    match skipWs cs with
    | [] => none
    | c :: rest =>
      if c = quoteChar then
        match scanString rest with
        | none => none
        | some (k, rest2) =>
          match skipWs rest2 with
          | [] => none
          | c2 :: rest3 =>
            if c2 = colonChar then
              match parseVal fuel rest3 with
              | none => none
              | some (v, rest4) =>
                match skipWs rest4 with
                | [] => none
                | c3 :: rest5 =>
                  if c3 = commaChar then parseMembers fuel rest5 (acc ++ [(k, v)])
                  else if c3 = rbraceChar then some (Json.obj (acc ++ [(k, v)]), rest5)
                  else none
            else none
      else none

/-- Parses an array body right after the opening bracket. -/
def parseElemsStart : Nat → List Char → Option (Json × List Char)
  | 0, _ => none
  | fuel + 1, cs =>
    match skipWs cs with
    | [] => none
    | c :: rest =>
      if c = rbrackChar then some (Json.arr [], rest)
      else parseElems fuel (c :: rest) []

/-- Parses the elements of a non-empty array. -/
def parseElems : Nat → List Char → List Json → Option (Json × List Char)
  | 0, _, _ => none
  | fuel + 1, cs, acc =>
    match parseVal fuel cs with
    | none => none
    | some (v, rest) =>
      match skipWs rest with
      | [] => none
      | c :: rest2 =>
        if c = commaChar then parseElems fuel rest2 (acc ++ [v])
        else if c = rbrackChar then some (Json.arr (acc ++ [v]), rest2)
        else none

end

/-- Platform `JSON.parse`, modelled fail-closed: `none` when the input is
not a (subset-)JSON document or has trailing garbage. -/
def parseJson (s : String) : Option Json :=
  match parseVal (s.length * 2 + 4) s.toList with
  | none => none
  | some (j, rest) => if skipWs rest = [] then some j else none

/-- Member lookup on a JSON object. -/
def Json.getField : Json → String → Option Json
  | Json.obj members, k => members.lookup k
  | _, _ => none

/-- String projection of a JSON value. -/
def Json.asStr : Json → Option String
  | Json.str s => some s
  | _ => none

/-- Numeric projection of a JSON value. -/
def Json.asNat : Json → Option Nat
  | Json.num n => some n
  | _ => none

/-- Extraction of a `Certificate` from parsed JSON; `none` when any
required field is missing or has the wrong type. -/
def certOfJson (j : Json) : Option Certificate := do
  let id ← (j.getField "id").bind Json.asStr
  let subject ← (j.getField "subject").bind Json.asStr
  let publicKey ← (j.getField "publicKey").bind Json.asStr
  let issuedAt ← (j.getField "issuedAt").bind Json.asNat
  let expiresAt ← (j.getField "expiresAt").bind Json.asNat
  let signature ← (j.getField "signature").bind Json.asStr
  pure { id := id, subject := subject, publicKey := publicKey, issuedAt := issuedAt,
         expiresAt := expiresAt, signature := signature }

/-- Extraction of a `DocumentSignature` from parsed JSON; `none` when any
required field is missing or has the wrong type. -/
def docSigOfJson (j : Json) : Option DigitalSigner.DocumentSignature := do
  let documentHash ← (j.getField "documentHash").bind Json.asStr
  let signature ← (j.getField "signature").bind Json.asStr
  let certJson ← j.getField "certificate"
  let certificate ← certOfJson certJson
  let timestamp ← (j.getField "timestamp").bind Json.asNat
  pure { documentHash := documentHash, signature := signature,
         certificate := certificate, timestamp := timestamp }

/-- Wraps a string in double quotes. -/
def qstr (s : String) : String :=
  String.singleton quoteChar ++ s ++ String.singleton quoteChar

/-- JSON serialization of a certificate. -/
def certToJsonStr (cert : Certificate) : String :=
  String.singleton lbraceChar
    ++ qstr "id" ++ ":" ++ qstr cert.id ++ ","
    ++ qstr "subject" ++ ":" ++ qstr cert.subject ++ ","
    ++ qstr "publicKey" ++ ":" ++ qstr cert.publicKey ++ ","
    ++ qstr "issuedAt" ++ ":" ++ toString cert.issuedAt ++ ","
    ++ qstr "expiresAt" ++ ":" ++ toString cert.expiresAt ++ ","
    ++ qstr "signature" ++ ":" ++ qstr cert.signature
    ++ String.singleton rbraceChar

namespace DigitalSigner

/-- Modelled from the spec: `DigitalSigner.createSignatureFile` — canonical
UTF-8 JSON serialization of a `DocumentSignature` as a detached-signature
artifact. -/
def createSignatureFile (docSig : DocumentSignature) : Bytes :=
  strBytes (String.singleton lbraceChar
    ++ qstr "documentHash" ++ ":" ++ qstr docSig.documentHash ++ ","
    ++ qstr "signature" ++ ":" ++ qstr docSig.signature ++ ","
    ++ qstr "certificate" ++ ":" ++ certToJsonStr docSig.certificate ++ ","
    ++ qstr "timestamp" ++ ":" ++ toString docSig.timestamp
    ++ String.singleton rbraceChar)

/-- Modelled from the spec: `DigitalSigner.parseSignatureFile` — parses the
detached-signature artifact, returning `null` (here `none`), not an
exception, when the bytes are not JSON or a required field is missing. -/
def parseSignatureFile (bytes : Bytes) : Option DocumentSignature :=
  match parseJson (bytesStr bytes) with
  | none => none
  | some j => docSigOfJson j

end DigitalSigner

/-- Digit character of a base-36 digit value, `0-9` then `a-z`, as
produced by the JavaScript `Number.prototype.toString(36)`. -/
def base36Digit (n : Nat) : Char :=
  if n < 10 then Char.ofNat (48 + n) else Char.ofNat (87 + n)

/-- Accumulator loop of the base-36 rendering. -/
def toBase36Aux (n : Nat) (acc : List Char) : List Char :=
  if h : n = 0 then acc
  else toBase36Aux (n / 36) (base36Digit (n % 36) :: acc)
termination_by n
decreasing_by exact Nat.div_lt_self (Nat.pos_of_ne_zero h) (by omega)

/-- JavaScript `n.toString(36)` for a nonnegative integer. -/
def toBase36 (n : Nat) : String :=
  if n = 0 then "0" else String.mk (toBase36Aux n [])

namespace CryptoProvider

/-- State of the `CryptoProvider` React component
(`src/unnamed/part_003` lines 38-44): the four `useState` cells, together
with the state of the process-wide `CertificateManager` singleton and the
module-level `ForwardSecrecy` counter that its operations manipulate.
Agreement key pairs are identified by their generation seed. -/
structure ProviderState where
  keyPair : Option Nat
  signingKeyPair : Option SigningKeyPair
  certificate : Option Certificate
  sharedSecret : Option Bytes
  manager : CertificateManager.ManagerState
  fs : ForwardSecrecy.State
deriving DecidableEq, Repr

/-- The state on mount: every `useState` cell starts at `null`, the
manager has no root key yet, and the send counter is zero. -/
def initialState : ProviderState :=
  { keyPair := none, signingKeyPair := none, certificate := none, sharedSecret := none,
    manager := { rootKeyPair := none }, fs := { counter := 0 } }

/-- From the source (`src/unnamed/part_003` lines 91-113): generates an
ECDH agreement key pair and stores it.  `seed` stands for the randomness
consumed. -/
def generateKeyPair (seed : Nat) (s : ProviderState) : Except String Nat × ProviderState :=
  (Except.ok seed, { s with keyPair := some seed })

/-- From the source (`src/unnamed/part_003` lines 116-125): generates an
ECDSA signing key pair through the certificate manager and stores it. -/
def generateSigningKeyPair (seed : Nat) (s : ProviderState) :
    Except String SigningKeyPair × ProviderState :=
  let kp := mkSigningKeyPair seed
  (Except.ok kp, { s with signingKeyPair := some kp })

/-- From the source (`src/unnamed/part_003` lines 127-152), with React
closure semantics: the `signingKeyPair` binding read by both null checks is
the snapshot captured when the call began; the `setSigningKeyPair` inside
the nested `generateSigningKeyPair` call updates the store for future
renders but never this call's binding.  When the snapshot has a key pair,
the requested subject gets the issuance time appended in base 36 before
the certificate is issued. -/
def generateCertificate (subject : String) (now : Nat) (freshId : String)
    (rootSeed freshSeed : Nat) (s : ProviderState) :
    Except String Certificate × ProviderState :=
  let snapshot := s.signingKeyPair
  let s1 := if snapshot.isNone then (generateSigningKeyPair freshSeed s).2 else s
  match snapshot with
  | none => (Except.error "Signing key pair not available", s1)
  | some kp =>
    let uniqueSubject := subject ++ "-" ++ toBase36 now
    let (cert, cm') :=
      CertificateManager.issueCertificate s1.manager rootSeed freshId uniqueSubject
        kp.publicKey now
    (Except.ok cert, { s1 with certificate := some cert, manager := cm' })

/-- From the source (`src/unnamed/part_003` lines 172-183): throws when no
shared secret is established, otherwise encrypts through the
`ForwardSecrecy` module, advancing its counter. -/
def encryptMessage (message : String) (iv : Bytes) (s : ProviderState) :
    Except String EncryptedData × ProviderState :=
  match s.sharedSecret with
  | none => (Except.error "No shared secret established", s)
  | some secret =>
    let (ed, fs') := ForwardSecrecy.encryptWithForwardSecrecy message secret iv s.fs
    (Except.ok ed, { s with fs := fs' })

/-- From the source (`src/unnamed/part_003` lines 186-204): throws when no
shared secret is established, otherwise decrypts through the
`ForwardSecrecy` module with the caller-supplied `messageIndex`. -/
def decryptMessage (encryptedData : EncryptedData) (messageIndex : Nat)
    (s : ProviderState) : Except String String × ProviderState :=
  match s.sharedSecret with
  | none => (Except.error "No shared secret established", s)
  | some secret =>
    match ForwardSecrecy.decryptWithForwardSecrecy encryptedData secret messageIndex with
    | some pt => (Except.ok pt, s)
    | none => (Except.error "Message decryption failed", s)

/-- The `decryptMessage` call with its defaulted `messageIndex = 0`
argument. -/
def decryptMessageDefault (encryptedData : EncryptedData) (s : ProviderState) :
    Except String String × ProviderState :=
  decryptMessage encryptedData 0 s

/-- From the source (`src/unnamed/part_003` lines 207-218): signs a message
with the stored signing private key. -/
def signMessage (message : String) (s : ProviderState) :
    Except String String × ProviderState :=
  match s.signingKeyPair with
  | none => (Except.error "Signing key pair not generated", s)
  | some kp => (Except.ok (DigitalSigner.signData message kp.privateKey), s)

/-- From the source (`src/unnamed/part_003` lines 221-241): first verifies
the sender's certificate through the certificate manager and answers
`false` when that fails; only then imports the sender's public key over the
manager's signing-key import path and verifies the message signature.  The
whole body sits in a `try/catch` whose handler returns `false`, so an
error in any step surfaces as `false`. -/
def verifyMessage (message signature : String) (senderCert : Certificate)
    (now : Nat) (s : ProviderState) : Bool :=
  if CertificateManager.verifyCertificate s.manager now senderCert = false then false
  else
    match CertificateManager.importPublicKey senderCert.publicKey with
    | Except.error _ => false
    | Except.ok senderPublicKey =>
      DigitalSigner.verifySignature message signature senderPublicKey

/-- From the source (`src/unnamed/part_003` lines 255-272): the provider's
own `importPublicKey` — imports raw key bytes with the `ECDH` algorithm,
curve P-256, and an empty usage list.  This is the agreement-key import
path, distinct from `CertificateManager.importPublicKey`. -/
def importPublicKey (keyData : String) : Except String CryptoKeyHandle :=
  match parseDecimal keyData with
  | some n => Except.ok { algorithm := "ECDH", usages := [], keySeed := n }
  | none => Except.error "Public key import failed"

/-- From the source (`src/unnamed/part_003` lines 275-282): certificate
verification delegated to the manager, with a catch-all returning
`false`. -/
def verifyCertificate (cert : Certificate) (now : Nat) (s : ProviderState) : Bool :=
  CertificateManager.verifyCertificate s.manager now cert

/-- From the source (`src/unnamed/part_003` lines 285-297): wipes and
clears all four cells, resets the certificate manager and zeroes the
`ForwardSecrecy` counter. -/
def reset (_s : ProviderState) : ProviderState :=
  { keyPair := none, signingKeyPair := none, certificate := none, sharedSecret := none,
    manager := CertificateManager.resetManager, fs := ForwardSecrecy.resetCounter }

/-- The states of the `CryptoProvider` reachable from mount by its exposed
operations, over all inputs and randomness. -/
inductive Reachable : ProviderState → Prop where
  | init : Reachable initialState
  | generateKeyPair (seed : Nat) {s : ProviderState} :
      Reachable s → Reachable (generateKeyPair seed s).2
  | generateSigningKeyPair (seed : Nat) {s : ProviderState} :
      Reachable s → Reachable (generateSigningKeyPair seed s).2
  | generateCertificate (subject : String) (now : Nat) (freshId : String)
      (rootSeed freshSeed : Nat) {s : ProviderState} :
      Reachable s → Reachable (generateCertificate subject now freshId rootSeed freshSeed s).2
  | encryptMessage (message : String) (iv : Bytes) {s : ProviderState} :
      Reachable s → Reachable (encryptMessage message iv s).2
  | decryptMessage (encryptedData : EncryptedData) (messageIndex : Nat) {s : ProviderState} :
      Reachable s → Reachable (decryptMessage encryptedData messageIndex s).2
  | signMessage (message : String) {s : ProviderState} :
      Reachable s → Reachable (signMessage message s).2
  | reset {s : ProviderState} : Reachable s → Reachable (reset s)

end CryptoProvider

namespace DocumentSigner

/-- Outcome of the `verifyDocument` handler in the `DocumentSigner`
component: the two early-return error banners, or a verification result. -/
inductive VerifyDocOutcome where
  | invalidFormat
  | invalidCert
  | result (valid : Bool)
deriving DecidableEq, Repr

/-- From the source (`src/unnamed/part_000` lines 74-121): parses the
signature file, verifies the embedded certificate, then imports the
signer's public key with `crypto.importPublicKey` — the provider's
ECDH agreement-key import path — and hands the result to
`DigitalSigner.verifyDocumentSignature`.  A throw anywhere is caught and
recorded as a failed verification. -/
def verifyDocument (fileBytes sigFileBytes : Bytes) (now : Nat)
    (s : CryptoProvider.ProviderState) : VerifyDocOutcome :=
  match DigitalSigner.parseSignatureFile sigFileBytes with
  | none => VerifyDocOutcome.invalidFormat
  | some parsedSignature =>
    if CryptoProvider.verifyCertificate parsedSignature.certificate now s = false then
      VerifyDocOutcome.invalidCert
    else
      match CryptoProvider.importPublicKey parsedSignature.certificate.publicKey with
      | Except.error _ => VerifyDocOutcome.result false
      | Except.ok signerPublicKey =>
        VerifyDocOutcome.result
          (DigitalSigner.verifyDocumentSignature fileBytes parsedSignature signerPublicKey)

end DocumentSigner


/-- Sample certificate used in concrete instantiations: its signature does
not verify under any root. -/
def sampleCert : Certificate :=
  { id := "1", subject := "mallory", publicKey := "5", issuedAt := 0, expiresAt := 100,
    signature := "bogus" }

/-- Provider state that already holds a signing key pair. -/
def stateWithSigningKey : CryptoProvider.ProviderState :=
  { CryptoProvider.initialState with signingKeyPair := some (mkSigningKeyPair 5) }

/-- Concrete issuance used by the document-verification scenario: a fresh
manager issues a certificate for subject `alice` over signing key 5 at
time 10. -/
def demoIssue : Certificate × CertificateManager.ManagerState :=
  CertificateManager.issueCertificate { rootKeyPair := none } 9 "id1" "alice" 5 10

/-- The issued demo certificate. -/
def demoCert : Certificate := demoIssue.1

/-- The manager holding the root that signed `demoCert`. -/
def demoManager : CertificateManager.ManagerState := demoIssue.2

/-- A document signature over the two-byte file `[104, 105]`, produced with
the signing private key 5 matching `demoCert`. -/
def demoDocSig : DigitalSigner.DocumentSignature :=
  DigitalSigner.signDocument [104, 105] 5 demoCert 11

/-- The serialized detached-signature artifact for `demoDocSig`. -/
def demoSigFile : Bytes := DigitalSigner.createSignatureFile demoDocSig

/-- Provider state whose manager trusts the root that signed
`demoCert`. -/
def demoState : CryptoProvider.ProviderState :=
  { CryptoProvider.initialState with manager := demoManager }

theorem bytesStr_strBytes (s : String) : bytesStr (strBytes s) = s := by
  unfold bytesStr strBytes
  rw [List.map_map]
  have : (Char.ofNat ∘ Char.toNat) = id := by
    funext c; exact Char.ofNat_toNat c
  rw [this, List.map_id]
  cases s; rfl

theorem aeadDecrypt_encrypt (secret : Bytes) (counter idx : Nat) (iv : Bytes)
    (plaintext : String) :
    aeadDecrypt (aeadEncrypt secret counter iv plaintext) secret idx iv =
      if idx = counter then some plaintext else none := by
  unfold aeadEncrypt aeadDecrypt
  simp only [List.take_left, List.drop_left]
  by_cases h : idx = counter
  · subst h
    simp [bytesStr_strBytes]
  · have hc : counter ≠ idx := Ne.symm h
    simp [h, hc]

theorem encryptCounters_eq_range' (st : ForwardSecrecy.State) (n : Nat) :
    ForwardSecrecy.encryptCounters st n = List.range' st.counter n := by
  induction n generalizing st with
  | zero => rfl
  | succ n ih =>
    rw [ForwardSecrecy.encryptCounters, ih, List.range'_succ]
    rfl

/-- C1 (counterexample): the payload produced for the second counter value
of a session cannot be decrypted with the defaulted message index — the
receiver cannot decrypt from the payload alone, because the counter does
not travel in it; the same payload decrypts only once the caller supplies
the encryption-time counter 1 by hand. -/
theorem decrypt_needs_caller_index_cex :
    ForwardSecrecy.decryptWithForwardSecrecy
      (ForwardSecrecy.encryptWithForwardSecrecy "hi" [7] [1] ⟨1⟩).1 [7] 0 = none ∧
    ForwardSecrecy.decryptWithForwardSecrecy
      (ForwardSecrecy.encryptWithForwardSecrecy "hi" [7] [1] ⟨1⟩).1 [7] 1 = some "hi" :=
  ⟨by decide, by decide⟩

/-- C1 (amended): the `EncryptedData` payload carries only `iv` and `data`
— no counter field — and `decryptWithForwardSecrecy` derives the message
key from the caller-supplied `messageIndex` argument, not from the
payload: decryption of an encrypted payload succeeds exactly when the
caller supplies the counter that was allocated at encryption time. -/
theorem decrypt_key_from_caller_index (message : String) (secret iv : Bytes)
    (st : ForwardSecrecy.State) (idx : Nat) :
    ForwardSecrecy.decryptWithForwardSecrecy
      ((ForwardSecrecy.encryptWithForwardSecrecy message secret iv st).1) secret idx =
      if idx = st.counter then some message else none := by
  unfold ForwardSecrecy.decryptWithForwardSecrecy ForwardSecrecy.encryptWithForwardSecrecy
  exact aeadDecrypt_encrypt secret st.counter idx iv message

/-- C2 (counterexample): the round trip with the defaulted message index
fails for the second message of a session — encrypting `"a"` then `"b"`
under the same shared secret and decrypting the second payload with the
default index 0 yields a decryption failure, not `"b"`. -/
theorem roundtrip_default_index_cex :
    ForwardSecrecy.decryptWithForwardSecrecy
      (ForwardSecrecy.encryptWithForwardSecrecy "b" [5] [3]
        (ForwardSecrecy.encryptWithForwardSecrecy "a" [5] [2] ⟨0⟩).2).1 [5] 0 = none :=
  by decide

/-- C2 (amended): for every plaintext and shared secret, decrypting the
encrypted payload with the message index equal to the counter allocated at
encryption returns the plaintext; in particular the defaulted index 0
round-trips exactly the payload encrypted at counter 0. -/
theorem roundtrip_matching_index (message : String) (secret iv : Bytes)
    (st : ForwardSecrecy.State) :
    ForwardSecrecy.decryptWithForwardSecrecy
      ((ForwardSecrecy.encryptWithForwardSecrecy message secret iv st).1) secret st.counter
      = some message ∧
    ForwardSecrecy.decryptWithForwardSecrecy
      ((ForwardSecrecy.encryptWithForwardSecrecy message secret iv ⟨0⟩).1) secret 0
      = some message := by
  constructor
  · have h := aeadDecrypt_encrypt secret st.counter st.counter iv message
    simpa using h
  · have h := aeadDecrypt_encrypt secret 0 0 iv message
    simpa using h

/-- C8: any `n` concurrent encrypt calls against one session allocate `n`
pairwise distinct counter values: counter allocation is the atomic,
non-suspending first step of `encryptWithForwardSecrecy`, so every
interleaving performs the allocations sequentially and the allocated list
has length `n` with no duplicates. -/
theorem concurrent_encrypt_counters_distinct (st : ForwardSecrecy.State) (n : Nat) :
    (ForwardSecrecy.encryptCounters st n).length = n ∧
    (ForwardSecrecy.encryptCounters st n).Nodup := by
  rw [encryptCounters_eq_range']
  exact ⟨by simp, List.nodup_range' _ _⟩

/-- C9: `parseSignatureFile` is fail-closed — when the byte input does not
parse as JSON the result is `none`, and when it does parse the result is
exactly the (optional) field extraction, which is `none` whenever a
required field is missing; in all cases the function returns an optional
`DocumentSignature` and never throws. -/
theorem parseSignatureFile_fail_closed (bytes : Bytes) :
    (parseJson (bytesStr bytes) = none → DigitalSigner.parseSignatureFile bytes = none) ∧
    (∀ j, parseJson (bytesStr bytes) = some j →
      DigitalSigner.parseSignatureFile bytes = docSigOfJson j) := by
  constructor
  · intro h
    unfold DigitalSigner.parseSignatureFile
    rw [h]
  · intro j h
    unfold DigitalSigner.parseSignatureFile
    rw [h]

/-- C9 (witness): the arbitrary non-JSON byte string `"garbage"` makes
`parseSignatureFile` return `none`. -/
theorem parseSignatureFile_fail_closed_witness :
    DigitalSigner.parseSignatureFile (strBytes "garbage") = none :=
  (parseSignatureFile_fail_closed (strBytes "garbage")).1 rfl

theorem generateCertificate_sharedSecret (subject : String) (now : Nat) (freshId : String)
    (rootSeed freshSeed : Nat) (s : CryptoProvider.ProviderState) :
    ((CryptoProvider.generateCertificate subject now freshId rootSeed freshSeed s).2).sharedSecret
      = s.sharedSecret := by
  unfold CryptoProvider.generateCertificate CryptoProvider.generateSigningKeyPair
  cases hs : s.signingKeyPair <;>
    simp [hs, CertificateManager.issueCertificate]

theorem encryptMessage_sharedSecret (message : String) (iv : Bytes)
    (s : CryptoProvider.ProviderState) :
    ((CryptoProvider.encryptMessage message iv s).2).sharedSecret = s.sharedSecret := by
  unfold CryptoProvider.encryptMessage
  cases hs : s.sharedSecret <;> simp [hs]

theorem decryptMessage_sharedSecret (encryptedData : EncryptedData) (messageIndex : Nat)
    (s : CryptoProvider.ProviderState) :
    ((CryptoProvider.decryptMessage encryptedData messageIndex s).2).sharedSecret
      = s.sharedSecret := by
  unfold CryptoProvider.decryptMessage
  split
  · rfl
  · split <;> rfl

theorem reachable_sharedSecret_none {s : CryptoProvider.ProviderState}
    (h : CryptoProvider.Reachable s) : s.sharedSecret = none := by
  induction h with
  | init => rfl
  | generateKeyPair seed _ ih => simpa [CryptoProvider.generateKeyPair] using ih
  | generateSigningKeyPair seed _ ih =>
      simpa [CryptoProvider.generateSigningKeyPair] using ih
  | generateCertificate subject now freshId rootSeed freshSeed _ ih =>
      rw [generateCertificate_sharedSecret]; exact ih
  | encryptMessage message iv _ ih =>
      rw [encryptMessage_sharedSecret]; exact ih
  | decryptMessage encryptedData messageIndex _ ih =>
      rw [decryptMessage_sharedSecret]; exact ih
  | signMessage message _ ih =>
      rename_i s' _
      unfold CryptoProvider.signMessage
      cases hs : s'.signingKeyPair <;> simpa [hs] using ih
  | reset _ => rfl

/-- C3: in every reachable `CryptoProvider` state the `sharedSecret` cell
is `none` — no exposed operation ever assigns it a non-null value and
`reset` only sets it back to `null` — and therefore every call to
`encryptMessage` or `decryptMessage` throws
`No shared secret established`. -/
theorem sharedSecret_never_established (s : CryptoProvider.ProviderState)
    (h : CryptoProvider.Reachable s) :
    s.sharedSecret = none ∧
    (∀ message iv, (CryptoProvider.encryptMessage message iv s).1 =
      Except.error "No shared secret established") ∧
    (∀ encryptedData messageIndex,
      (CryptoProvider.decryptMessage encryptedData messageIndex s).1 =
      Except.error "No shared secret established") := by
  have hnone := reachable_sharedSecret_none h
  refine ⟨hnone, ?_, ?_⟩
  · intro message iv
    unfold CryptoProvider.encryptMessage
    rw [hnone]
  · intro encryptedData messageIndex
    unfold CryptoProvider.decryptMessage
    rw [hnone]

/-- C3 (witness): on the mount state, which is reachable, `encryptMessage`
throws `No shared secret established`. -/
theorem sharedSecret_never_established_witness :
    (CryptoProvider.encryptMessage "m" [0] CryptoProvider.initialState).1 =
      Except.error "No shared secret established" :=
  (sharedSecret_never_established CryptoProvider.initialState
    CryptoProvider.Reachable.init).2.1 "m" [0]

/-- C4: `verifyMessage` checks the sender's certificate through the
certificate manager first and answers `false` whenever that check fails;
it answers `true` only when the certificate check succeeded, the sender
key import succeeded on the signing-key path, and the signature then
verified — and it is a total boolean function, every internal failure
being caught and surfaced as `false`. -/
theorem verifyMessage_cert_first (message signature : String) (senderCert : Certificate)
    (now : Nat) (s : CryptoProvider.ProviderState) :
    (CertificateManager.verifyCertificate s.manager now senderCert = false →
      CryptoProvider.verifyMessage message signature senderCert now s = false) ∧
    (CryptoProvider.verifyMessage message signature senderCert now s = true →
      CertificateManager.verifyCertificate s.manager now senderCert = true ∧
      ∃ key, CertificateManager.importPublicKey senderCert.publicKey = Except.ok key ∧
        DigitalSigner.verifySignature message signature key = true) := by
  constructor
  · intro hc
    unfold CryptoProvider.verifyMessage
    simp [hc]
  · intro ht
    unfold CryptoProvider.verifyMessage at ht
    by_cases hc : CertificateManager.verifyCertificate s.manager now senderCert = false
    · simp [hc] at ht
    · have hc' : CertificateManager.verifyCertificate s.manager now senderCert = true := by
        cases hcv : CertificateManager.verifyCertificate s.manager now senderCert
        · exact absurd hcv hc
        · rfl
      refine ⟨hc', ?_⟩
      rw [if_neg hc] at ht
      cases himp : CertificateManager.importPublicKey senderCert.publicKey with
      | error e => rw [himp] at ht; exact absurd ht (by simp)
      | ok key => rw [himp] at ht; exact ⟨key, rfl, ht⟩

/-- C4 (witness): under the mount state's manager, which holds no root
key, the certificate check fails and `verifyMessage` answers `false`. -/
theorem verifyMessage_cert_first_witness :
    CryptoProvider.verifyMessage "m" "sig" sampleCert 0 CryptoProvider.initialState = false :=
  (verifyMessage_cert_first "m" "sig" sampleCert 0 CryptoProvider.initialState).1 (by decide)

/-- C5: `verifyCertificate` is a total boolean function that answers
`true` exactly when a root key exists, the certificate is inside its
validity window (`issuedAt ≤ now < expiresAt`), and its signature
verifies over the canonical field serialization under the root public
key; expired, not-yet-valid and signature-mismatching certificates all
yield `false`, never an exception. -/
theorem verifyCertificate_fail_closed (cm : CertificateManager.ManagerState) (now : Nat)
    (cert : Certificate) :
    CertificateManager.verifyCertificate cm now cert = true ↔
      ∃ root, cm.rootKeyPair = some root ∧ cert.issuedAt ≤ now ∧ now < cert.expiresAt ∧
        eccVerify root.publicKey
          (CertificateManager.certPayload cert.id cert.subject cert.publicKey
            cert.issuedAt cert.expiresAt) cert.signature = true := by
  unfold CertificateManager.verifyCertificate
  cases hr : cm.rootKeyPair with
  | none => simp
  | some root =>
    simp only [Bool.and_eq_true, decide_eq_true_eq]
    constructor
    · rintro ⟨⟨h1, h2⟩, h3⟩
      exact ⟨root, rfl, h1, h2, h3⟩
    · rintro ⟨r, hr2, h1, h2, h3⟩
      cases hr2
      exact ⟨⟨h1, h2⟩, h3⟩

/-- C5 (witness): the freshly issued demo certificate verifies `true`
inside its validity window under the issuing manager. -/
theorem verifyCertificate_fail_closed_witness :
    CertificateManager.verifyCertificate demoManager 12 demoCert = true :=
  (verifyCertificate_fail_closed demoManager 12 demoCert).mpr
    ⟨mkSigningKeyPair 9, by decide, by decide, by decide, by decide⟩

set_option maxRecDepth 100000 in
/-- C6: document verification imports the signer's certificate key over
the provider's ECDH agreement-key import path, not the signing-key path.
For a correctly signed document and a well-formed artifact whose
certificate verifies, `verifyDocument` still answers `false`, because the
key it hands to `verifyDocumentSignature` was imported with the `ECDH`
algorithm and an empty usage list; the same serialized key imported
through the certificate manager's signing path (`ECDSA` with the `verify`
usage) makes the document signature verify `true`. -/
theorem document_verify_uses_agreement_import :
    DocumentSigner.verifyDocument [104, 105] demoSigFile 12 demoState =
      DocumentSigner.VerifyDocOutcome.result false ∧
    CryptoProvider.importPublicKey demoCert.publicKey =
      Except.ok { algorithm := "ECDH", usages := [], keySeed := 5 } ∧
    CertificateManager.importPublicKey demoCert.publicKey =
      Except.ok { algorithm := "ECDSA", usages := ["verify"], keySeed := 5 } ∧
    DigitalSigner.verifyDocumentSignature [104, 105] demoDocSig
      { algorithm := "ECDSA", usages := ["verify"], keySeed := 5 } = true :=
  ⟨by decide, rfl, rfl, by decide⟩

/-- C7: when the provider state holds a signing key pair, the certificate
obtained through `generateCertificate` has as its subject the requested
name with the base-36 issuance time appended. -/
theorem generateCertificate_appends_issuance_time (subject : String) (now : Nat)
    (freshId : String) (rootSeed freshSeed : Nat) (s : CryptoProvider.ProviderState)
    (kp : SigningKeyPair) (h : s.signingKeyPair = some kp) :
    ∃ cert, (CryptoProvider.generateCertificate subject now freshId rootSeed freshSeed s).1
        = Except.ok cert ∧ cert.subject = subject ++ "-" ++ toBase36 now := by
  unfold CryptoProvider.generateCertificate
  simp [h, CertificateManager.issueCertificate]

/-- C7 (witness): at concrete inputs the issued certificate's subject is
the requested name with the issuance time appended. -/
theorem generateCertificate_appends_issuance_time_witness :
    ∃ cert, (CryptoProvider.generateCertificate "alice" 42 "id1" 9 5 stateWithSigningKey).1
        = Except.ok cert ∧ cert.subject = "alice" ++ "-" ++ toBase36 42 :=
  generateCertificate_appends_issuance_time "alice" 42 "id1" 9 5 stateWithSigningKey
    (mkSigningKeyPair 5) rfl

/-- C10: calling `generateCertificate` in a state whose `signingKeyPair`
is `null` generates and stores a fresh signing key pair, yet still throws
`Signing key pair not available` without issuing a certificate: the
post-generation null check re-reads the stale closure binding, not the
newly stored pair. -/
theorem generateCertificate_stale_null_check (subject : String) (now : Nat)
    (freshId : String) (rootSeed freshSeed : Nat) (s : CryptoProvider.ProviderState)
    (h : s.signingKeyPair = none) :
    CryptoProvider.generateCertificate subject now freshId rootSeed freshSeed s =
      (Except.error "Signing key pair not available",
        { s with signingKeyPair := some (mkSigningKeyPair freshSeed) }) := by
  unfold CryptoProvider.generateCertificate CryptoProvider.generateSigningKeyPair
  simp [h]

/-- C10 (witness): on the mount state the call stores a fresh signing key
pair, throws, and leaves the certificate cell untouched. -/
theorem generateCertificate_stale_null_check_witness :
    CryptoProvider.generateCertificate "alice" 42 "id1" 9 5 CryptoProvider.initialState =
      (Except.error "Signing key pair not available",
        { CryptoProvider.initialState with
            signingKeyPair := some (mkSigningKeyPair 5) }) :=
  generateCertificate_stale_null_check "alice" 42 "id1" 9 5 CryptoProvider.initialState rfl

end SecureChat
